import Mathlib

/-
Shallow embedding of the propease-tenant-portal client
(src/src/Dashboard.tsx: the Dashboard component and the Login component,
src/src/App.tsx: the route table).

The client has one persisted slot (localStorage key "token"), two routes
("/" for the login screen, "/dashboard" for the protected view), a login
submission handler, and a dashboard activation effect that gates on the
token, issues at most one fetch, and renders the result.
-/

/-- JavaScript truthiness of a nullable string, as used by the source in
`if (!TOKEN)`, `lease.contract_url ? _ : _` and `if (error)`: `null`
(here `none`) and the empty string are falsy, every other string truthy. -/
def truthy : Option String → Bool
  | none => false
  | some s => !s.isEmpty

/-- JavaScript string coercion applied by `localStorage.setItem` to its
value argument: an `undefined` value (here `none`) is stored as the
string "undefined". -/
def jsStringOfOpt : Option String → String
  | some s => s
  | none => "undefined"

/-- JavaScript `a || b` on a possibly-absent string, as in
`err.response?.data?.message || "Something went wrong."`: the fallback is
used when the left side is absent or an empty (falsy) string. -/
def jsOrFallback (m : Option String) (fallback : String) : String :=
  match m with
  | some s => if s.isEmpty then fallback else s
  | none => fallback

/-- `rent_amount: string | number` from the `TenantData` interface. The
numeric side is modelled with `Int` (every value the client handles is an
integer amount). -/
inductive StrOrNum where
  | str (s : String)
  | num (n : Int)
deriving DecidableEq, Repr

/-- One element of `active_leases` in the `TenantData` interface. -/
structure Lease where
  id : Int
  unit_name : String
  rent_amount : StrOrNum
  end_date : String
  contract_url : Option String
deriving DecidableEq, Repr

/-- The `TenantData` interface: the profile returned by
`GET /tenant/dashboard`. -/
structure TenantData where
  tenant_name : String
  contact_number : String
  active_leases : List Lease
deriving DecidableEq, Repr

/-- Value of a decimal digit character (code points 48 through 57),
`none` for any other character. -/
def digitVal (c : Char) : Option Nat :=
  let v := c.toNat
  if 48 ≤ v ∧ v ≤ 57 then some (v - 48) else none

/-- Read a run of decimal digits as a natural number; `none` when the
list is empty or contains a non-digit. -/
def parseDigitsAux : List Char → Option Nat → Option Nat
  | [], acc => acc
  | c :: cs, acc =>
    match digitVal c with
    | some d => parseDigitsAux cs (some (acc.getD 0 * 10 + d))
    | none => none

/-- All-digits parse of a character list. -/
def parseDigitsNat (l : List Char) : Option Nat :=
  parseDigitsAux l none

/-- Strip leading and trailing whitespace characters. -/
def trimChars (l : List Char) : List Char :=
  ((l.dropWhile Char.isWhitespace).reverse.dropWhile Char.isWhitespace).reverse

/-- Decimal-integer fragment of the JavaScript `Number(x)` coercion used
in `Number(lease.rent_amount)`: whitespace is trimmed, the empty string
is 0, an optional minus sign followed by digits parses, anything else is
NaN (`none`). (The full JS coercion also accepts fractions, exponents
and hex; the client only ever displays integer amounts.) -/
def parseJSInt (s : String) : Option Int :=
  match trimChars s.data with
  | [] => some 0
  | c :: cs =>
    if c = '-' then
      match parseDigitsNat cs with
      | some n => some (-(n : Int))
      | none => none
    else
      match parseDigitsNat (c :: cs) with
      | some n => some ((n : Int))
      | none => none

/-- `Number(x)` applied to a `string | number` value; `none` is NaN. -/
def jsNumber : StrOrNum → Option Int
  | StrOrNum.num n => some n
  | StrOrNum.str s => parseJSInt s

/-- Split a little-endian digit list into groups of three. -/
def chunk3 : List Char → List (List Char)
  | [] => []
  | [a] => [[a]]
  | [a, b] => [[a, b]]
  | a :: b :: c :: rest => [a, b, c] :: chunk3 rest

/-- Decimal digits of a natural number with thousands separators, e.g.
120000 becomes "120,000". -/
def groupThousands (n : Nat) : String :=
  String.mk (((chunk3 (Nat.toDigits 10 n).reverse).intersperse [',']).flatten.reverse)

/-- `Number(...).toLocaleString()` as the source calls it (default
grouping locale, comma thousands separators); NaN prints as "NaN". -/
def jsToLocaleString : Option Int → String
  | none => "NaN"
  | some n => if n < 0 then "-" ++ groupThousands n.natAbs else groupThousands n.natAbs

/-- Month names used by the `en-GB` long month format. -/
def monthName (m : Nat) : String :=
  ["January", "February", "March", "April", "May", "June", "July",
   "August", "September", "October", "November", "December"].getD (m - 1) ""

/-- Split a character list into the runs between dash characters. -/
def splitOnDash : List Char → List (List Char)
  | [] => [[]]
  | c :: cs =>
    let rest := splitOnDash cs
    if c = '-' then [] :: rest
    else
      match rest with
      | [] => [[c]]
      | g :: gs => (c :: g) :: gs

/-- Parse of a "YYYY-MM-DD" date string as `new Date(...)` reads the
ISO date-only form (UTC midnight). -/
def parseISODate (s : String) : Option (Nat × Nat × Nat) :=
  match splitOnDash s.data with
  | [y, m, d] =>
    match parseDigitsNat y, parseDigitsNat m, parseDigitsNat d with
    | some yn, some mn, some dn =>
      if 1 ≤ mn && mn ≤ 12 && 1 ≤ dn && dn ≤ 31 then some (yn, mn, dn) else none
    | _, _, _ => none
  | _ => none

/-- `new Date(lease.end_date).toLocaleDateString("en-GB", \x7bday:
numeric, month: long, year: numeric\x7d)`: day, full month name, year,
rendered in a UTC environment. -/
def toLocaleDateStringGB (s : String) : String :=
  match parseISODate s with
  | some (y, m, d) => toString d ++ " " ++ monthName m ++ " " ++ toString y
  | none => "Invalid Date"

/-- The contract cell of one lease card: either the link to the signed
contract or the "No contract uploaded" indicator. -/
inductive ContractArea where
  | link (url : String)
  | noContract
deriving DecidableEq, Repr

/-- The conditional `lease.contract_url ? <a href=...> : <span>No
contract uploaded</span>` from the lease card, with JS truthiness on the
nullable string. -/
def renderContractArea (l : Lease) : ContractArea :=
  match l.contract_url with
  | some url => if url.isEmpty then ContractArea.noContract else ContractArea.link url
  | none => ContractArea.noContract

/-- The visible text content of one lease card. -/
structure LeaseCard where
  unitLine : String
  rentLine : String
  dateLine : String
  contractArea : ContractArea
deriving DecidableEq, Repr

/-- The per-lease render inside `data.active_leases.map`. -/
def renderLease (l : Lease) : LeaseCard :=
  { unitLine := "Unit: " ++ l.unit_name
    rentLine := "AED " ++ jsToLocaleString (jsNumber l.rent_amount)
    dateLine := toLocaleDateStringGB l.end_date
    contractArea := renderContractArea l }

/-- The header badge: `\x7bdata.active_leases.length\x7d Active
\x7b... === 1 ? "Lease" : "Leases"\x7d`. -/
def headerBadge (d : TenantData) : String :=
  toString d.active_leases.length ++ " Active " ++
    (if d.active_leases.length = 1 then "Lease" else "Leases")

/-- Body of a resolved (2xx) dashboard response as the `.then` handler
receives it: axios parses the JSON silently and the client performs no
runtime validation (the TS interface is erased), so the body either
happens to be a `TenantData` or is any other value (`malformed`). -/
inductive FetchedBody where
  | profile (p : TenantData)
  | malformed
deriving DecidableEq, Repr

/-- The three `useState` slots of the Dashboard component: `data`,
`loading`, `error`. `setData(response.data)` stores whatever body the
resolved response carried, without validation, so `data` holds a
`FetchedBody`, not necessarily a profile. -/
structure DashState where
  data : Option FetchedBody
  loading : Bool
  error : Option String
deriving DecidableEq, Repr

/-- Initial component state: `useState(null)`, `useState(true)`,
`useState(null)`. -/
def dashInit : DashState := { data := none, loading := true, error := none }

/-- Top-level views the Dashboard component can return: the loading
placeholder, the error placeholder, `null`, the main portal UI, or a
render crash: when the stored body is not a profile, evaluating the
main UI throws a TypeError at `data.active_leases.length` and nothing
is committed. -/
inductive DashboardView where
  | loadingView
  | errorView (msg : String)
  | nullView
  | mainView (profile : TenantData)
  | crashed
deriving DecidableEq, Repr

/-- The early-return chain of the Dashboard render: `if (loading) ...`,
`if (error) ...` (JS truthiness on the string), `if (!data) return
null`, otherwise the main UI is rendered from `data`; a stored body
that is not a profile makes that render throw instead of commit. -/
def renderDashboard (st : DashState) : DashboardView :=
  if st.loading then DashboardView.loadingView
  else if truthy st.error then DashboardView.errorView (st.error.getD "")
  else
    match st.data with
    | some (FetchedBody.profile d) => DashboardView.mainView d
    | some FetchedBody.malformed => DashboardView.crashed
    | none => DashboardView.nullView

/-- Whether the rendered view contains the Sign Out button. In the
source the button lives in the navigation bar of the main UI only; the
loading, error and null returns contain no such control. -/
def signOutAvailable : DashboardView → Bool
  | DashboardView.mainView _ => true
  | _ => false

/-- The Sign Out click handler: `localStorage.removeItem("token");
navigate("/")`, returning the new slot value and the new route. -/
def signOut (_storage : Option String) (_route : String) : Option String × String :=
  (none, "/")

/-- Outcome of the single `axios.get` issued by the dashboard effect:
a resolved 2xx response carrying its unvalidated body, a rejection
carrying `err.response.status` on non-2xx, or a network failure with
no response at all. -/
inductive FetchOutcome where
  | success (body : FetchedBody)
  | httpError (status : Nat)
  | networkError
deriving DecidableEq, Repr

/-- The static message set by the non-401 failure branch. -/
def dashErrorMessage : String :=
  "Could not load data. Ensure your Laravel server is running."

/-- Result of one activation of the dashboard route: the slot and route
afterwards, the component state, the bearer token of the issued request
(`none` when the gate redirected before any fetch), and how many
requests were issued. -/
structure ActivationResult where
  storage : Option String
  route : String
  dash : DashState
  requestIssued : Option String
  requestCount : Nat
deriving DecidableEq, Repr

/-- The `useEffect` body of the Dashboard component, one activation of
the "/dashboard" route. `TOKEN = localStorage.getItem("token")`; when
`!TOKEN` it navigates to "/" and returns before any fetch; otherwise it
issues one `axios.get` with `Authorization: Bearer TOKEN` and handles
the three outcomes: a resolved response stores its unvalidated body and
clears loading; a 401 rejection removes the token and navigates to "/";
any other rejection sets the static error message and clears
loading. -/
def dashboardActivate (storage : Option String) (server : FetchOutcome) : ActivationResult :=
  if truthy storage = false then
    { storage := storage, route := "/", dash := dashInit
      requestIssued := none, requestCount := 0 }
  else
    let bearer := storage.getD ""
    match server with
    | FetchOutcome.success body =>
      { storage := storage, route := "/dashboard"
        dash := { data := some body, loading := false, error := none }
        requestIssued := some bearer, requestCount := 1 }
    | FetchOutcome.httpError status =>
      if status = 401 then
        { storage := none, route := "/", dash := dashInit
          requestIssued := some bearer, requestCount := 1 }
      else
        { storage := storage, route := "/dashboard"
          dash := { data := none, loading := false, error := some dashErrorMessage }
          requestIssued := some bearer, requestCount := 1 }
    | FetchOutcome.networkError =>
      { storage := storage, route := "/dashboard"
        dash := { data := none, loading := false, error := some dashErrorMessage }
        requestIssued := some bearer, requestCount := 1 }

/-- Body of a successful `POST /api/login` response as the handler reads
it: `response.data.token`, which may be absent (`undefined`). -/
structure LoginResponseBody where
  token : Option String
deriving DecidableEq, Repr

/-- Outcome of the login `axios.post`: a 2xx response with its body, or
a failure carrying `err.response?.data?.message` (absent on network
failure or when the error body has no message). -/
inductive LoginOutcome where
  | success (body : LoginResponseBody)
  | failure (message : Option String)
deriving DecidableEq, Repr

/-- The fallback text of the login error display. -/
def loginFallbackMessage : String := "Something went wrong."

/-- Result of one `handleLogin` submission: slot and route afterwards,
the `error` state, the `loading` busy flag after the `finally`, and the
number of `navigate` calls made. -/
structure LoginResult where
  storage : Option String
  route : String
  error : Option String
  loading : Bool
  navigations : Nat
deriving DecidableEq, Repr

/-- The `handleLogin` handler of the Login component. It sets the busy
flag and clears the error, awaits the post; on success it stores
`response.data.token` (string-coerced by `setItem`) and navigates to
"/dashboard" once; on failure it sets
`err.response?.data?.message || "Something went wrong."` and does not
navigate; the `finally` clears the busy flag on every path. -/
def handleLogin (storage : Option String) (route : String) (server : LoginOutcome) : LoginResult :=
  match server with
  | LoginOutcome.success body =>
    { storage := some (jsStringOfOpt body.token), route := "/dashboard"
      error := none, loading := false, navigations := 1 }
  | LoginOutcome.failure msg =>
    { storage := storage, route := route
      error := some (jsOrFallback msg loginFallbackMessage)
      loading := false, navigations := 0 }

/-- C1: when the persisted credential is empty or absent, activating the
dashboard route redirects to the entry screen and issues no profile
request; moreover a request is issued in an activation exactly when the
credential is truthy, so for a given activation the fetch path and the
gate redirect path are mutually exclusive. -/
theorem gate_no_credential_redirects_without_fetch
    (storage : Option String) (server : FetchOutcome)
    (h : truthy storage = false) :
    (dashboardActivate storage server).route = "/" ∧
    (dashboardActivate storage server).requestIssued = none ∧
    (∀ s srv, (dashboardActivate s srv).requestIssued.isSome = truthy s) := by
  refine ⟨by simp [dashboardActivate, h], by simp [dashboardActivate, h], ?_⟩
  intro s srv
  cases hs : truthy s with
  | false => simp [dashboardActivate, hs]
  | true =>
    cases srv with
    | success p => simp [dashboardActivate, hs]
    | httpError st =>
      by_cases h4 : st = 401 <;> simp [dashboardActivate, hs, h4]
    | networkError => simp [dashboardActivate, hs]

/-- Witness for C1: the absent credential with a network failure on the
server side redirects without a request. -/
theorem gate_no_credential_redirects_without_fetch_witness :
    (dashboardActivate none FetchOutcome.networkError).route = "/" ∧
    (dashboardActivate none FetchOutcome.networkError).requestIssued = none ∧
    (∀ s srv, (dashboardActivate s srv).requestIssued.isSome = truthy s) :=
  gate_no_credential_redirects_without_fetch none FetchOutcome.networkError rfl

/-- C2: when the dashboard fetch is rejected with HTTP 401, the
persisted slot is cleared, the route becomes the entry screen, and no
error message is set (the error state stays empty). -/
theorem fetch_401_clears_token_redirects_silently (storage : Option String)
    (h : truthy storage = true) :
    (dashboardActivate storage (FetchOutcome.httpError 401)).storage = none ∧
    (dashboardActivate storage (FetchOutcome.httpError 401)).route = "/" ∧
    (dashboardActivate storage (FetchOutcome.httpError 401)).dash.error = none := by
  simp [dashboardActivate, h, dashInit]

/-- Witness for C2 at the credential "abc". -/
theorem fetch_401_clears_token_redirects_silently_witness :
    (dashboardActivate (some "abc") (FetchOutcome.httpError 401)).storage = none ∧
    (dashboardActivate (some "abc") (FetchOutcome.httpError 401)).route = "/" ∧
    (dashboardActivate (some "abc") (FetchOutcome.httpError 401)).dash.error = none :=
  fetch_401_clears_token_redirects_silently (some "abc") (by decide)

/-- C3: a successful login response carrying a token stores that token
in the persisted slot and navigates to the dashboard route exactly
once. -/
theorem login_success_persists_token_navigates_once
    (storage : Option String) (route : String) (t : String) :
    (handleLogin storage route (LoginOutcome.success { token := some t })).storage = some t ∧
    (handleLogin storage route (LoginOutcome.success { token := some t })).route = "/dashboard" ∧
    (handleLogin storage route (LoginOutcome.success { token := some t })).navigations = 1 :=
  ⟨rfl, rfl, rfl⟩

/-- C4 counterexample: a login failure whose error body carries the
present message "" displays the fallback text, not that present
message, because the source combines them with the truthiness operator
`||`. -/
theorem login_failure_empty_message_counterexample :
    (handleLogin none "/" (LoginOutcome.failure (some ""))).error =
      some "Something went wrong." ∧
    (handleLogin none "/" (LoginOutcome.failure (some ""))).error ≠ some "" := by
  constructor <;> decide

/-- C4 as amended: on every login failure the displayed error is the
message from the error body when one is present and non-empty, and the
fallback "Something went wrong." otherwise; no navigation occurs, the
route is unchanged, and the busy flag ends false. -/
theorem login_failure_shows_message_or_fallback
    (storage : Option String) (route : String) (msg : Option String) :
    ((msg = none ∨ msg = some "") →
      (handleLogin storage route (LoginOutcome.failure msg)).error =
        some "Something went wrong.") ∧
    (∀ m, msg = some m → m ≠ "" →
      (handleLogin storage route (LoginOutcome.failure msg)).error = some m) ∧
    (handleLogin storage route (LoginOutcome.failure msg)).navigations = 0 ∧
    (handleLogin storage route (LoginOutcome.failure msg)).route = route ∧
    (handleLogin storage route (LoginOutcome.failure msg)).loading = false := by
  refine ⟨?_, ?_, rfl, rfl, rfl⟩
  · rintro (rfl | rfl) <;> rfl
  · rintro m rfl hm
    have hE : m.isEmpty = false := by
      cases hmE : m.isEmpty
      · rfl
      · exact absurd ((String.isEmpty_iff m).mp hmE) hm
    simp [handleLogin, jsOrFallback, hE]

/-- Witness for C4 at a failure carrying the message "bad creds". -/
theorem login_failure_shows_message_or_fallback_witness :
    (handleLogin none "/" (LoginOutcome.failure (some "bad creds"))).error =
      some "bad creds" :=
  (login_failure_shows_message_or_fallback none "/" (some "bad creds")).2.1
    "bad creds" rfl (by decide)

/-- C5 counterexample: a resolved 2xx response whose body is not a
TenantProfile (the "malformed response" case of the claim) never
reaches the catch handler: the unvalidated body is stored, the loading
flag clears, no error message is set, and the subsequent render crashes
instead of showing the static error view. -/
theorem fetch_malformed_body_counterexample :
    (dashboardActivate (some "abc")
      (FetchOutcome.success FetchedBody.malformed)).dash.error = none ∧
    (dashboardActivate (some "abc")
      (FetchOutcome.success FetchedBody.malformed)).dash.loading = false ∧
    renderDashboard (dashboardActivate (some "abc")
      (FetchOutcome.success FetchedBody.malformed)).dash = DashboardView.crashed := by
  refine ⟨by decide, by decide, by decide⟩

/-- C5 as amended: every rejected dashboard fetch other than a 401
(non-2xx server status or network failure) sets the static error
message, clears the loading flag, renders the error view in place of
the dashboard, issues exactly one request (no retry), and leaves the
persisted slot untouched; a resolved malformed body is not one of
these failures and instead crashes the render with no error message. -/
theorem fetch_nonauth_failure_static_error
    (storage : Option String) (server : FetchOutcome)
    (ht : truthy storage = true)
    (hsucc : ∀ p, server ≠ FetchOutcome.success p)
    (h401 : server ≠ FetchOutcome.httpError 401) :
    (dashboardActivate storage server).dash.error = some dashErrorMessage ∧
    (dashboardActivate storage server).dash.loading = false ∧
    renderDashboard (dashboardActivate storage server).dash =
      DashboardView.errorView dashErrorMessage ∧
    (dashboardActivate storage server).requestCount = 1 ∧
    (dashboardActivate storage server).storage = storage := by
  cases server with
  | success p => exact absurd rfl (hsucc p)
  | httpError st =>
    have hst : st ≠ 401 := fun h => h401 (by rw [h])
    refine ⟨?_, ?_, ?_, ?_, ?_⟩ <;> (simp [dashboardActivate, ht, hst]; try decide)
  | networkError =>
    refine ⟨?_, ?_, ?_, ?_, ?_⟩ <;> (simp [dashboardActivate, ht]; try decide)

/-- Witness for C5: a network failure with the credential "abc". -/
theorem fetch_nonauth_failure_static_error_witness :
    (dashboardActivate (some "abc") FetchOutcome.networkError).dash.error =
      some dashErrorMessage :=
  (fetch_nonauth_failure_static_error (some "abc") FetchOutcome.networkError
    (by decide) (fun _ h => FetchOutcome.noConfusion h)
    (fun h => FetchOutcome.noConfusion h)).1

/-- C6 counterexample: in the Failed state (loading cleared, error set)
the component renders the error placeholder, which contains no Sign Out
control, so the sign-out action is not available from every state. -/
theorem signout_unavailable_in_failed_state :
    signOutAvailable (renderDashboard
      { data := none, loading := false, error := some dashErrorMessage }) = false := by
  decide

/-- C6 as amended: the Sign Out control is rendered exactly in the
Loaded state (loading cleared, no truthy error, a profile body
present); when invoked it clears the persisted slot and routes to the
entry screen. -/
theorem signout_available_only_when_loaded (st : DashState)
    (storage : Option String) (route : String) :
    (signOutAvailable (renderDashboard st) = true ↔
      st.loading = false ∧ truthy st.error = false ∧
        ∃ p, st.data = some (FetchedBody.profile p)) ∧
    (signOut storage route).1 = none ∧ (signOut storage route).2 = "/" := by
  refine ⟨?_, rfl, rfl⟩
  obtain ⟨data, loading, error⟩ := st
  cases loading with
  | true => simp [renderDashboard, signOutAvailable]
  | false =>
    cases htv : truthy error with
    | true => simp [renderDashboard, signOutAvailable, htv]
    | false =>
      cases data with
      | none => simp [renderDashboard, signOutAvailable, htv]
      | some b => cases b <;> simp [renderDashboard, signOutAvailable, htv]

/-- Witness for C6: a loaded state renders the control, and invoking
sign-out clears the slot. -/
theorem signout_available_only_when_loaded_witness :
    signOutAvailable (renderDashboard
      ⟨some (FetchedBody.profile ⟨"J", "555", []⟩), false, none⟩) = true ∧
    (signOut (some "abc") "/dashboard").1 = none :=
  ⟨(signout_available_only_when_loaded
      ⟨some (FetchedBody.profile ⟨"J", "555", []⟩), false, none⟩
      (some "abc") "/dashboard").1.mpr ⟨rfl, rfl, ⟨_, rfl⟩⟩,
   (signout_available_only_when_loaded
      ⟨some (FetchedBody.profile ⟨"J", "555", []⟩), false, none⟩
      (some "abc") "/dashboard").2.1⟩

/-- C7 counterexample: a lease whose contract_url is the present empty
string renders the "no contract uploaded" indicator, not the link,
because the source branches on JS truthiness. -/
theorem contract_link_truthiness_counterexample :
    ({ id := 1, unit_name := "A1", rent_amount := StrOrNum.str "0",
       end_date := "2025-01-01", contract_url := some "" } : Lease).contract_url =
      some "" ∧
    renderContractArea
      { id := 1, unit_name := "A1", rent_amount := StrOrNum.str "0",
        end_date := "2025-01-01", contract_url := some "" } = ContractArea.noContract :=
  ⟨rfl, rfl⟩

/-- C7 as amended: for every lease exactly one of the contract link and
the "no contract uploaded" indicator is rendered, never zero or both;
the link appears exactly when contract_url is present and non-empty,
the indicator exactly when it is absent or the empty string. -/
theorem contract_area_exactly_one (l : Lease) :
    ((∃ url, renderContractArea l = ContractArea.link url) ∨
      renderContractArea l = ContractArea.noContract) ∧
    ¬ ((∃ url, renderContractArea l = ContractArea.link url) ∧
      renderContractArea l = ContractArea.noContract) ∧
    (∀ url, renderContractArea l = ContractArea.link url ↔
      (l.contract_url = some url ∧ url ≠ "")) ∧
    (renderContractArea l = ContractArea.noContract ↔
      (l.contract_url = none ∨ l.contract_url = some "")) := by
  obtain ⟨i, un, ra, ed, cu⟩ := l
  cases cu with
  | none => simp [renderContractArea]
  | some url =>
    by_cases hu : url = ""
    · subst hu
      have hR : renderContractArea ⟨i, un, ra, ed, some ""⟩ = ContractArea.noContract := rfl
      refine ⟨Or.inr hR, ?_, ?_, ?_⟩
      · rintro ⟨⟨u, hu2⟩, -⟩
        rw [hR] at hu2
        exact ContractArea.noConfusion hu2
      · intro u
        constructor
        · intro h2
          rw [hR] at h2
          exact ContractArea.noConfusion h2
        · rintro ⟨h1, h2⟩
          exact absurd (Option.some.inj h1).symm h2
      · exact ⟨fun _ => Or.inr rfl, fun _ => hR⟩
    · have hE : url.isEmpty = false := by
        cases h2 : url.isEmpty
        · rfl
        · exact absurd ((String.isEmpty_iff url).mp h2) hu
      simp [renderContractArea, hE, hu]

/-- Witness for C7: a present non-empty contract_url renders the
link. -/
theorem contract_area_exactly_one_witness :
    renderContractArea
      { id := 1, unit_name := "A1", rent_amount := StrOrNum.str "0",
        end_date := "2025-01-01", contract_url := some "https://x/c.pdf" } =
      ContractArea.link "https://x/c.pdf" :=
  ((contract_area_exactly_one
      { id := 1, unit_name := "A1", rent_amount := StrOrNum.str "0",
        end_date := "2025-01-01", contract_url := some "https://x/c.pdf" }).2.2.1
    "https://x/c.pdf").mpr ⟨rfl, by decide⟩

/-- C8: the header badge shows the count of active leases with the
singular label exactly when the count is 1 and the plural label
otherwise (including zero). -/
theorem header_badge_pluralizes (d : TenantData) :
    (d.active_leases.length = 1 → headerBadge d = "1 Active Lease") ∧
    (d.active_leases.length ≠ 1 →
      headerBadge d = toString d.active_leases.length ++ " Active " ++ "Leases") := by
  constructor
  · intro h
    simp only [headerBadge, h]
    decide
  · intro h
    simp only [headerBadge, if_neg h]

/-- Witness for C8: two leases give the plural badge, one lease the
singular badge. -/
theorem header_badge_pluralizes_witness :
    headerBadge ⟨"J", "555", [⟨1, "A1", StrOrNum.num 0, "2025-01-01", none⟩,
      ⟨2, "B2", StrOrNum.num 0, "2025-01-01", none⟩]⟩ = "2 Active Leases" ∧
    headerBadge ⟨"J", "555", [⟨1, "A1", StrOrNum.num 0, "2025-01-01", none⟩]⟩ =
      "1 Active Lease" :=
  ⟨((header_badge_pluralizes ⟨"J", "555", [⟨1, "A1", StrOrNum.num 0, "2025-01-01", none⟩,
      ⟨2, "B2", StrOrNum.num 0, "2025-01-01", none⟩]⟩).2 (by decide)).trans (by decide),
   (header_badge_pluralizes ⟨"J", "555",
      [⟨1, "A1", StrOrNum.num 0, "2025-01-01", none⟩]⟩).1 (by decide)⟩

/-- The lease of the dashboard render scenario in the specification. -/
def scenarioLease : Lease :=
  { id := 1, unit_name := "A1", rent_amount := StrOrNum.str "120000",
    end_date := "2025-12-31", contract_url := none }

/-- C9: the scenario lease renders its rent as "AED 120,000" (string
coerced to a number and grouped), its end date as "31 December 2025",
and the "no contract uploaded" indicator. -/
theorem scenario_lease_renders_formatted :
    (renderLease scenarioLease).rentLine = "AED 120,000" ∧
    (renderLease scenarioLease).dateLine = "31 December 2025" ∧
    (renderLease scenarioLease).contractArea = ContractArea.noContract := by
  refine ⟨by decide, by decide, rfl⟩

/-- C10: a 2xx login response with no token field still takes the
success path: the slot receives the string "undefined" (the missing
field coerced by setItem), navigation to the dashboard happens once,
and a later gate check sees a truthy credential and issues the profile
request with the literal bearer "undefined". -/
theorem login_missing_token_stores_undefined_and_passes_gate
    (storage : Option String) (route : String) (server : FetchOutcome) :
    (handleLogin storage route (LoginOutcome.success { token := none })).storage =
      some "undefined" ∧
    (handleLogin storage route (LoginOutcome.success { token := none })).route =
      "/dashboard" ∧
    (handleLogin storage route (LoginOutcome.success { token := none })).navigations = 1 ∧
    truthy (some "undefined") = true ∧
    (dashboardActivate (some "undefined") server).requestIssued = some "undefined" := by
  refine ⟨rfl, rfl, rfl, rfl, ?_⟩
  have htrue : truthy (some "undefined") = true := by decide
  cases server with
  | success p => simp [dashboardActivate, htrue]
  | httpError st =>
    by_cases h4 : st = 401 <;> simp [dashboardActivate, htrue, h4]
  | networkError => simp [dashboardActivate, htrue]
